import Mathlib

/-!
# Vox media plane — verification of the SFU state, header codec and client runtime

Shallow embedding of the Vox repository's media plane:

* `MediaHeader` with `parse`/`encode` (crates/vox-sfu/src/header.rs and
  sdk/crates/vox-media/src/quic.rs — the two copies are byte-for-byte identical);
* the SFU room registry `State` with its operations
  (crates/vox-sfu/src/state.rs);
* the per-datagram forwarding decision `forward_datagram`
  (crates/vox-sfu/src/endpoint.rs);
* the client media runtime: `establish_session`, `reconnect_with_backoff`,
  `send_audio_frame`, `receive_audio_frame` (sdk/crates/vox-media/src/state.rs)
  and the `VoxMediaClient` command surface (sdk/crates/vox-media/src/lib.rs).

Machine integers are modelled as `Nat` with explicit `% 2 ^ 32` (resp. bounds
`< 256`) where the Rust code relies on `u32` (resp. `u8`) semantics.  I/O
steps (QUIC connects, audio devices, Opus calls, datagram sends) are
abstracted into explicit outcome arguments; everything the theorems talk
about is the pure state manipulation performed by the source.
-/

set_option maxRecDepth 4000

namespace Vox

/-! ## Big-endian u32 helpers

`u32::to_be_bytes` / `u32::from_be_bytes` on values `< 2 ^ 32`
(bytes written most-significant first). -/

/-- `u32::from_be_bytes([b0, b1, b2, b3])`: the u32 whose big-endian bytes
are `b0 b1 b2 b3`. -/
def fromBe32 (b0 b1 b2 b3 : Nat) : Nat :=
  b0 * 2 ^ 24 + b1 * 2 ^ 16 + b2 * 2 ^ 8 + b3

/-- `v.to_be_bytes()` for a u32 `v`: big-endian byte list. -/
def toBe32 (v : Nat) : List Nat :=
  [v / 2 ^ 24 % 256, v / 2 ^ 16 % 256, v / 2 ^ 8 % 256, v % 256]

theorem fromBe32_toBe32 (v : Nat) (hv : v < 2 ^ 32) :
    fromBe32 (v / 2 ^ 24 % 256) (v / 2 ^ 16 % 256) (v / 2 ^ 8 % 256) (v % 256) = v := by
  unfold fromBe32
  omega

theorem toBe32_fromBe32 (a b c d : Nat)
    (ha : a < 256) (hb : b < 256) (hc : c < 256) (hd : d < 256) :
    toBe32 (fromBe32 a b c d) = [a, b, c, d] := by
  simp only [toBe32, fromBe32, List.cons.injEq, and_true]
  refine ⟨?_, ?_, ?_, ?_⟩ <;> omega

/-! ## Media header codec (header.rs / quic.rs) -/

/-- `HEADER_SIZE`: size of the fixed media frame header in bytes. -/
def HEADER_SIZE : Nat := 22

/-- Flag bit `FLAG_KEYFRAME = 0b1000_0000`. -/
def FLAG_KEYFRAME : Nat := 0x80
/-- Flag bit `FLAG_END_OF_FRAME = 0b0100_0000`. -/
def FLAG_END_OF_FRAME : Nat := 0x40
/-- Flag bit `FLAG_FEC = 0b0010_0000`. -/
def FLAG_FEC : Nat := 0x20
/-- Flag bit `FLAG_MARKER = 0b0001_0000`. -/
def FLAG_MARKER : Nat := 0x10
/-- Flag bit `FLAG_HAS_DEP_DESC = 0b0000_1000`. -/
def FLAG_HAS_DEP_DESC : Nat := 0x08

/-- `MediaHeader` (header.rs lines 13-25): the parsed 22-byte media frame
header.  `u8` fields are `Nat`s below 256, `u32` fields `Nat`s below
`2 ^ 32`; the bounds are captured by `MediaHeader.Wf`. -/
@[ext]
structure MediaHeader where
  version : Nat
  media_type : Nat
  codec_id : Nat
  flags : Nat
  room_id : Nat
  user_id : Nat
  sequence : Nat
  timestamp : Nat
  spatial_id : Nat
  temporal_id : Nat
  dtx : Bool
deriving DecidableEq, Repr

/-- Field bounds imposed by the Rust types (`u8` / `u32`). -/
def MediaHeader.Wf (h : MediaHeader) : Prop :=
  h.version < 256 ∧ h.media_type < 256 ∧ h.codec_id < 256 ∧ h.flags < 256 ∧
  h.room_id < 2 ^ 32 ∧ h.user_id < 2 ^ 32 ∧ h.sequence < 2 ^ 32 ∧
  h.timestamp < 2 ^ 32 ∧ h.spatial_id < 256 ∧ h.temporal_id < 256

instance (h : MediaHeader) : Decidable h.Wf := by
  unfold MediaHeader.Wf
  infer_instance

/-- `MediaHeader::parse` (header.rs lines 30-48, identical in quic.rs):
returns `none` iff fewer than 22 bytes are available; otherwise reads the
fixed big-endian layout.  `spatial_id` is byte 20's high nibble,
`temporal_id` its low nibble, `dtx` the MSB of byte 21. -/
def MediaHeader.parse (data : List Nat) : Option MediaHeader :=
  match data with
  | b0 :: b1 :: b2 :: b3 :: b4 :: b5 :: b6 :: b7 :: b8 :: b9 :: b10 :: b11 ::
    b12 :: b13 :: b14 :: b15 :: b16 :: b17 :: b18 :: b19 :: b20 :: b21 :: _ =>
      some
        { version := b0
          media_type := b1
          codec_id := b2
          flags := b3
          room_id := fromBe32 b4 b5 b6 b7
          user_id := fromBe32 b8 b9 b10 b11
          sequence := fromBe32 b12 b13 b14 b15
          timestamp := fromBe32 b16 b17 b18 b19
          spatial_id := b20 / 16
          temporal_id := b20 % 16
          dtx := b21 &&& 0x80 != 0 }
  | _ => none

/-- `MediaHeader::encode` (quic.rs lines 82-95): 22 bytes, big-endian.
Byte 20 is `(spatial_id << 4) | (temporal_id & 0x0F)` — the Rust `<<` on a
`u8` discards overflowing bits, hence the `% 256`.  Byte 21 is `0x80` if
`dtx` else `0`. -/
def MediaHeader.encode (h : MediaHeader) : List Nat :=
  [h.version, h.media_type, h.codec_id, h.flags] ++
  toBe32 h.room_id ++ toBe32 h.user_id ++ toBe32 h.sequence ++ toBe32 h.timestamp ++
  [h.spatial_id <<< 4 % 256 ||| (h.temporal_id &&& 0x0F),
   if h.dtx then 0x80 else 0]

theorem encode_length (h : MediaHeader) : h.encode.length = HEADER_SIZE := rfl

theorem nibble_roundtrip_hi :
    ∀ s < 16, ∀ t < 16, (s <<< 4 % 256 ||| (t &&& 0x0F)) / 16 = s := by decide

theorem nibble_roundtrip_lo :
    ∀ s < 16, ∀ t < 16, (s <<< 4 % 256 ||| (t &&& 0x0F)) % 16 = t := by decide

theorem packed_byte_roundtrip :
    ∀ b < 256, (b / 16) <<< 4 % 256 ||| (b % 16 &&& 0x0F) = b := by decide

theorem dtx_byte_roundtrip (b : Bool) :
    ((if b then (0x80 : Nat) else 0) &&& 0x80 != 0) = b := by
  cases b <;> decide

theorem dtx_byte_masked :
    ∀ b < 256, (if (b &&& 0x80 != 0 : Bool) then (0x80 : Nat) else 0) = (b &&& 0x80) := by
  decide

/-- A header whose `spatial_id` uses more than byte 20's high nibble. -/
def hWideSpatial : MediaHeader :=
  { version := 0, media_type := 0, codec_id := 0, flags := 0, room_id := 0,
    user_id := 0, sequence := 0, timestamp := 0, spatial_id := 16,
    temporal_id := 0, dtx := false }

/-- C3 (counterexample): the round-trip `parse (encode h) = some h` fails when
`spatial_id` ranges over all of `u8`: at `spatial_id = 16` the encoder's
`<< 4` discards the high nibble, so the reparsed header has `spatial_id = 0`. -/
theorem header_roundtrip_fails_on_wide_spatial_id :
    MediaHeader.parse (MediaHeader.encode hWideSpatial) ≠ some hWideSpatial := by
  decide

/-- C3 (amended): for every header whose fields fit their Rust types and whose
`spatial_id` and `temporal_id` fit byte 20's two nibbles (`< 16`),
`parse (encode h)` returns `some h` with every field, including all flag
bits, recovered exactly. -/
theorem header_roundtrip_nibble_safe (h : MediaHeader) (hwf : h.Wf)
    (hs : h.spatial_id < 16) (ht : h.temporal_id < 16) :
    MediaHeader.parse (MediaHeader.encode h) = some h := by
  obtain ⟨-, -, -, -, hr, hu, hq, hts, -, -⟩ := hwf
  simp only [MediaHeader.encode, toBe32, List.cons_append, List.nil_append,
    MediaHeader.parse, Option.some.injEq]
  exact MediaHeader.ext rfl rfl rfl rfl
    (fromBe32_toBe32 _ hr) (fromBe32_toBe32 _ hu)
    (fromBe32_toBe32 _ hq) (fromBe32_toBe32 _ hts)
    (nibble_roundtrip_hi _ hs _ ht) (nibble_roundtrip_lo _ hs _ ht)
    (dtx_byte_roundtrip _)

/-- A concrete in-range header exercising every field. -/
def hNibbleSafe : MediaHeader :=
  { version := 1, media_type := 0, codec_id := 1, flags := 0xC8, room_id := 100,
    user_id := 42, sequence := 7, timestamp := 48000, spatial_id := 2,
    temporal_id := 1, dtx := true }

theorem header_roundtrip_nibble_safe_witness :
    MediaHeader.parse (MediaHeader.encode hNibbleSafe) = some hNibbleSafe :=
  header_roundtrip_nibble_safe hNibbleSafe (by decide) (by decide) (by decide)

/-- A 22-byte datagram whose byte 21 has a low bit set. -/
def bLowBitsSet : List Nat :=
  [1, 0, 1, 0, 0, 0, 0, 7, 0, 0, 0, 9, 0, 0, 0, 1, 0, 0, 0, 0, 0x21, 0x01]

/-- C4 (counterexample): `encode (parse b)` does not reproduce the first 22
bytes of every `b` of length ≥ 22: byte 21's seven low bits are not stored in
the parsed header, so for `bLowBitsSet` (byte 21 = 0x01) the re-encoding
differs from the input. -/
theorem reencode_fails_on_byte21_low_bits :
    (MediaHeader.parse bLowBitsSet).map MediaHeader.encode ≠ some (bLowBitsSet.take 22) := by
  decide

/-- C4 (amended): for every byte sequence of length ≥ 22, `parse` returns a
header, and re-encoding reproduces bytes 0-20 exactly (including byte 20's
two nibbles) while byte 21 is reproduced masked to its MSB
(`b21 &&& 0x80`) — its seven low bits come back as zero. -/
theorem reencode_first_22_bytes_masked
    (b0 b1 b2 b3 b4 b5 b6 b7 b8 b9 b10 b11 b12 b13 b14 b15 b16 b17 b18 b19 b20 b21 : Nat)
    (rest : List Nat)
    (h4 : b4 < 256) (h5 : b5 < 256) (h6 : b6 < 256) (h7 : b7 < 256)
    (h8 : b8 < 256) (h9 : b9 < 256) (h10 : b10 < 256) (h11 : b11 < 256)
    (h12 : b12 < 256) (h13 : b13 < 256) (h14 : b14 < 256) (h15 : b15 < 256)
    (h16 : b16 < 256) (h17 : b17 < 256) (h18 : b18 < 256) (h19 : b19 < 256)
    (h20 : b20 < 256) (h21 : b21 < 256) :
    (MediaHeader.parse (b0 :: b1 :: b2 :: b3 :: b4 :: b5 :: b6 :: b7 :: b8 :: b9 :: b10 :: b11 ::
      b12 :: b13 :: b14 :: b15 :: b16 :: b17 :: b18 :: b19 :: b20 :: b21 :: rest)).map
        MediaHeader.encode =
      some [b0, b1, b2, b3, b4, b5, b6, b7, b8, b9, b10, b11,
            b12, b13, b14, b15, b16, b17, b18, b19, b20, b21 &&& 0x80] := by
  simp only [MediaHeader.parse, Option.map_some']
  simp only [MediaHeader.encode]
  rw [toBe32_fromBe32 _ _ _ _ h4 h5 h6 h7, toBe32_fromBe32 _ _ _ _ h8 h9 h10 h11,
      toBe32_fromBe32 _ _ _ _ h12 h13 h14 h15, toBe32_fromBe32 _ _ _ _ h16 h17 h18 h19,
      packed_byte_roundtrip b20 h20, dtx_byte_masked b21 h21]
  rfl

theorem reencode_first_22_bytes_masked_witness :
    (MediaHeader.parse bLowBitsSet).map MediaHeader.encode =
      some [1, 0, 1, 0, 0, 0, 0, 7, 0, 0, 0, 9, 0, 0, 0, 1, 0, 0, 0, 0, 0x21, 0] :=
  reencode_first_22_bytes_masked 1 0 1 0 0 0 0 7 0 0 0 9 0 0 0 1 0 0 0 0 0x21 0x01 []
    (by decide) (by decide) (by decide) (by decide) (by decide) (by decide)
    (by decide) (by decide) (by decide) (by decide) (by decide) (by decide)
    (by decide) (by decide) (by decide) (by decide) (by decide) (by decide)

/-! ## SFU room registry (state.rs)

`HashMap` is modelled as an association list with at most one entry per key:
`insertA` replaces any previous binding (as `HashMap::insert` does), `eraseA`
removes it (`HashMap::remove`), `lookupA` finds it (`HashMap::get`).
Iteration order is irrelevant to every property below.  `quinn::Connection`
handles are abstracted to `Nat` identifiers. -/

/-- `HashMap::get`. -/
def lookupA {κ α : Type} [BEq κ] : List (κ × α) → κ → Option α
  | [], _ => none
  | (k', v) :: t, k => if k' == k then some v else lookupA t k

/-- `HashMap::remove` (dropping the returned value). -/
def eraseA {κ α : Type} [BEq κ] (l : List (κ × α)) (k : κ) : List (κ × α) :=
  l.filter (fun p => !(p.1 == k))

/-- `HashMap::insert`: bind `k` to `v`, replacing any previous binding. -/
def insertA {κ α : Type} [BEq κ] (l : List (κ × α)) (k : κ) (v : α) : List (κ × α) :=
  (k, v) :: eraseA l k

/-- `UserSession` (state.rs lines 17-21): the opaque admission token and the
optional live transport handle. -/
structure UserSession where
  user_id : Nat
  token : String
  connection : Option Nat
deriving DecidableEq, Repr

/-- `Room` (state.rs lines 12-15): `user_id → UserSession`. -/
structure Room where
  room_id : Nat
  users : List (Nat × UserSession)
deriving DecidableEq, Repr

/-- `State` (state.rs lines 7-10): rooms plus the reverse token index. -/
structure State where
  rooms : List (Nat × Room)
  token_index : List (String × (Nat × Nat))
deriving DecidableEq, Repr

/-- `State::new` (state.rs lines 24-29). -/
def State.new : State := { rooms := [], token_index := [] }

/-- `State::add_room` (state.rs lines 31-36): `entry(..).or_insert_with(..)` —
idempotent, an existing room is untouched. -/
def State.add_room (st : State) (room_id : Nat) : State :=
  match lookupA st.rooms room_id with
  | some _ => st
  | none =>
      let room : Room := { room_id := room_id, users := [] }
      { st with rooms := insertA st.rooms room_id room }

/-- `State::remove_room` (state.rs lines 38-44): removes the room and evicts
every token owned by its sessions from the token index. -/
def State.remove_room (st : State) (room_id : Nat) : State :=
  match lookupA st.rooms room_id with
  | none => st
  | some room =>
      { rooms := eraseA st.rooms room_id
        token_index := room.users.foldl (fun idx p => eraseA idx p.2.token) st.token_index }

/-- `State::admit_user` (state.rs lines 46-59): unconditionally inserts
`token → (room_id, user_id)` into the token index, then — only if the room
exists — inserts the session (with no live transport).  Note the source
neither fails when the room is absent nor purges a previously indexed token
of the same `(room, user)`. -/
def State.admit_user (st : State) (room_id user_id : Nat) (token : String) : State :=
  let idx := insertA st.token_index token (room_id, user_id)
  match lookupA st.rooms room_id with
  | some room =>
      let session : UserSession := { user_id := user_id, token := token, connection := none }
      let room' : Room := { room with users := insertA room.users user_id session }
      { rooms := insertA st.rooms room_id room', token_index := idx }
  | none => { st with token_index := idx }

/-- `State::remove_user` (state.rs lines 61-67): removes the session if
present and purges its token; no-op otherwise. -/
def State.remove_user (st : State) (room_id user_id : Nat) : State :=
  match lookupA st.rooms room_id with
  | none => st
  | some room =>
      match lookupA room.users user_id with
      | none => st
      | some session =>
          let room' : Room := { room with users := eraseA room.users user_id }
          { rooms := insertA st.rooms room_id room'
            token_index := eraseA st.token_index session.token }

/-- `State::get_room_users` (state.rs lines 69-73). -/
def State.get_room_users (st : State) (room_id : Nat) : Option (List Nat) :=
  (lookupA st.rooms room_id).map (fun room => room.users.map Prod.fst)

/-- The session referenced by a token-index entry exists in the referenced
room. -/
def sessionExists (st : State) (room_id user_id : Nat) : Bool :=
  match lookupA st.rooms room_id with
  | none => false
  | some room => (lookupA room.users user_id).isSome

/-- The token-index consistency invariant of the spec: every key of
`token_index` resolves to an existing session in the referenced room, and
every stored session's token appears as a key of `token_index`. -/
def tokenIndexConsistent (st : State) : Bool :=
  st.token_index.all (fun p => sessionExists st p.2.1 p.2.2) &&
  st.rooms.all (fun rp => rp.2.users.all
    (fun up => (lookupA st.token_index up.2.token).isSome))

/-- C1 (code bug): the token-index consistency invariant is not preserved by
the source's `admit_user`.  First conjunct: admitting a user to a room that
does not exist still inserts the token into `token_index`, leaving a key that
resolves to no session.  Second and third conjuncts: re-admitting `(1, 2)`
with token "b" after token "a" leaves the stale key "a" in the index
(pointing at a session whose token is now "b") instead of purging it. -/
theorem token_index_consistency_violated :
    tokenIndexConsistent (State.new.admit_user 5 9 "x") = false ∧
    lookupA (((State.new.add_room 1).admit_user 1 2 "a").admit_user 1 2 "b").token_index "a"
      = some (1, 2) ∧
    (lookupA (((State.new.add_room 1).admit_user 1 2 "a").admit_user 1 2 "b").rooms 1).map
        (fun room => lookupA room.users 2)
      = some (some ({ user_id := 2, token := "b", connection := none } : UserSession)) := by
  refine ⟨by decide, by decide, by decide⟩

/-- C2 (code bug): `State::admit_user` on a room that does not exist cannot
fail (it returns unit) and does not leave the state unchanged: it adds the
token to `token_index` while `rooms` stays empty.  The last conjunct records
the half of the claim the code does satisfy: when the room exists, the
session is inserted with no live transport. -/
theorem admit_user_missing_room_mutates_state :
    (State.new.admit_user 1 2 "t").token_index = [("t", (1, 2))] ∧
    (State.new.admit_user 1 2 "t").rooms = [] ∧
    (lookupA ((State.new.add_room 1).admit_user 1 2 "t").rooms 1).map
        (fun room => lookupA room.users 2)
      = some (some ({ user_id := 2, token := "t", connection := none } : UserSession)) := by
  refine ⟨by decide, by decide, by decide⟩

/-! ## SFU forwarding engine (endpoint.rs) -/

/-- `forward_datagram` (endpoint.rs lines 140-169), as the list of
`(user_id, connection handle)` pairs the datagram is submitted to: parse the
header (drop if shorter than 22 bytes), drop on a room/user identity
mismatch, otherwise submit to every other user of the room snapshot holding
a live transport handle.  Individual send failures are ignored by the source
and do not affect this submission set. -/
def forward_datagram (data : List Nat) (room_id sender_id : Nat) (st : State) :
    List (Nat × Nat) :=
  match MediaHeader.parse data with
  | none => []
  | some header =>
      if header.room_id != room_id || header.user_id != sender_id then []
      else
        match lookupA st.rooms room_id with
        | none => []
        | some room =>
            room.users.filterMap (fun p =>
              if p.1 != sender_id then p.2.connection.map (fun c => (p.1, c)) else none)

/-- The spec's fan-out target set, written from the spec's words for
comparison with `forward_datagram`: every other user of room `R` whose
session holds a live transport handle in the snapshot. -/
def specFanoutTargets (st : State) (room_id sender_id : Nat) : List Nat :=
  match lookupA st.rooms room_id with
  | none => []
  | some room =>
      (room.users.filter (fun p => decide (p.1 ≠ sender_id) && p.2.connection.isSome)).map
        Prod.fst

theorem fanout_users_eq (users : List (Nat × UserSession)) (sender_id : Nat) :
    (users.filterMap (fun p =>
        if p.1 != sender_id then p.2.connection.map (fun c => (p.1, c)) else none)).map
      Prod.fst =
    (users.filter (fun p => decide (p.1 ≠ sender_id) && p.2.connection.isSome)).map
      Prod.fst := by
  induction users with
  | nil => rfl
  | cons a t ih =>
      simp only [List.filterMap_cons, List.filter_cons]
      simp at ih
      by_cases hne : a.1 = sender_id
      · simp [hne, ih]
      · rcases hconn : a.2.connection with - | c
        · simp [hne, hconn, ih]
        · simp [hne, hconn, ih]

theorem fanout_not_sender (users : List (Nat × UserSession)) (sender_id : Nat) (c : Nat) :
    (sender_id, c) ∉
      users.filterMap (fun p =>
        if p.1 != sender_id then p.2.connection.map (fun conn => (p.1, conn)) else none) := by
  intro hmem
  rcases List.mem_filterMap.mp hmem with ⟨p, -, hp⟩
  by_cases hne : p.1 = sender_id
  · simp [hne] at hp
  · rcases hconn : p.2.connection with - | conn
    · simp [hne, hconn] at hp
    · simp [hne, hconn] at hp

/-- C5: when a datagram from the connection authenticated as
`(room R, user U)` is accepted for forwarding (header parses and declares
exactly `(R, U)`), `forward_datagram` submits it to exactly the other users
of room `R` whose session holds a live transport handle in the state
snapshot, and never to `U`'s own transport. -/
theorem forward_fanout_excludes_sender (data : List Nat) (R U : Nat) (st : State)
    (h : MediaHeader) (hp : MediaHeader.parse data = some h)
    (hr : h.room_id = R) (hu : h.user_id = U) :
    (forward_datagram data R U st).map Prod.fst = specFanoutTargets st R U ∧
    ∀ c, (U, c) ∉ forward_datagram data R U st := by
  subst hr hu
  unfold forward_datagram specFanoutTargets
  rw [hp]
  simp only [bne_self_eq_false, Bool.or_self, Bool.false_eq_true, if_false]
  rcases lookupA st.rooms h.room_id with - | room
  · exact ⟨rfl, fun c => List.not_mem_nil _⟩
  · exact ⟨fanout_users_eq room.users h.user_id,
      fun c => fanout_not_sender room.users h.user_id c⟩

/-- C6: a datagram that parses to a header whose `room_id` or `user_id`
differs from the authenticated identity `(R, U)` is dropped:
`forward_datagram` submits it to no peer. -/
theorem forward_drops_identity_mismatch (data : List Nat) (R U : Nat) (st : State)
    (h : MediaHeader) (hp : MediaHeader.parse data = some h)
    (hm : h.room_id ≠ R ∨ h.user_id ≠ U) :
    forward_datagram data R U st = [] := by
  unfold forward_datagram
  rw [hp]
  rcases hm with hm | hm <;> simp [hm]

/-- A registry snapshot: room 7 with users 10 and 11 live and user 12
admitted but not connected. -/
def stFanout : State :=
  { rooms :=
      [(7, { room_id := 7
             users := [(10, { user_id := 10, token := "t10", connection := some 100 }),
                       (11, { user_id := 11, token := "t11", connection := some 101 }),
                       (12, { user_id := 12, token := "t12", connection := none })] })]
    token_index := [("t10", (7, 10)), ("t11", (7, 11)), ("t12", (7, 12))] }

/-- A frame correctly declaring the authenticated identity `(7, 10)`. -/
def hFromUser10 : MediaHeader :=
  { version := 1, media_type := 0, codec_id := 1, flags := 0x40, room_id := 7,
    user_id := 10, sequence := 1, timestamp := 48000, spatial_id := 0,
    temporal_id := 0, dtx := false }

theorem forward_fanout_excludes_sender_witness :
    ((forward_datagram (MediaHeader.encode hFromUser10) 7 10 stFanout).map Prod.fst
        = specFanoutTargets stFanout 7 10) ∧
    ∀ c, (10, c) ∉ forward_datagram (MediaHeader.encode hFromUser10) 7 10 stFanout :=
  forward_fanout_excludes_sender (MediaHeader.encode hFromUser10) 7 10 stFanout
    hFromUser10 (by decide) rfl rfl

/-- A frame claiming to originate from user 11 over user 10's connection. -/
def hSpoofUser11 : MediaHeader :=
  { version := 1, media_type := 0, codec_id := 1, flags := 0x40, room_id := 7,
    user_id := 11, sequence := 1, timestamp := 48000, spatial_id := 0,
    temporal_id := 0, dtx := false }

theorem forward_drops_identity_mismatch_witness :
    forward_datagram (MediaHeader.encode hSpoofUser11) 7 10 stFanout = [] :=
  forward_drops_identity_mismatch (MediaHeader.encode hSpoofUser11) 7 10 stFanout
    hSpoofUser11 (by decide) (Or.inr (by decide))

/-! ## Client media runtime (sdk state.rs)

The QUIC connect, audio-device setup and Opus construction performed by
`establish_session` are I/O; they are abstracted into an `outcome` argument
that supplies the connection handle when every step succeeds.  The state the
source constructs on success, and everything the reconnect loop does between
I/O calls, is modelled exactly. -/

/-- `MAX_RECONNECT_ATTEMPTS` (sdk state.rs line 12). -/
def MAX_RECONNECT_ATTEMPTS : Nat := 5
/-- `MAX_BACKOFF_SECS` (sdk state.rs line 14). -/
def MAX_BACKOFF_SECS : Nat := 30

/-- `ConnectParams` (sdk state.rs lines 18-26). -/
structure ConnectParams where
  url : String
  token : String
  room_id : Nat
  user_id : Nat
  cert_der : Option (List Nat)
  idle_timeout_secs : Nat
  datagram_buffer_size : Nat
deriving DecidableEq, Repr

/-- `ActiveSession` (sdk state.rs lines 31-46), restricted to the fields the
claims are about; encoder/decoder and the capture/playback stream handles
are owned I/O resources with no bearing on the counters or toggles. -/
structure ActiveSession where
  connection : Nat
  room_id : Nat
  user_id : Nat
  sequence : Nat
  timestamp : Nat
  muted : Bool
  deafened : Bool
  video : Bool
deriving DecidableEq, Repr

/-- `establish_session` (sdk state.rs lines 49-122): on success the source
returns `Ok(ActiveSession { sequence: 0, timestamp: 0, muted: false,
deafened: false, video: false, .. })`; every fallible I/O step is abstracted
into `outcome` (the connection handle iff all steps succeeded). -/
def establish_session (p : ConnectParams) (outcome : Option Nat) : Option ActiveSession :=
  outcome.map (fun conn =>
    { connection := conn
      room_id := p.room_id
      user_id := p.user_id
      sequence := 0
      timestamp := 0
      muted := false
      deafened := false
      video := false })

/-- `MediaEvent` (sdk lib.rs lines 31-37). -/
inductive MediaEvent where
  | connected : MediaEvent
  | disconnected : String → MediaEvent
  | connectFailed : String → MediaEvent
  | reconnecting : Nat → Nat → MediaEvent
  | audioError : String → MediaEvent
deriving DecidableEq, Repr

/-- The loop body of `reconnect_with_backoff` (sdk state.rs lines 130-153):
`remaining` counts the attempts left, `attempt` the 1-indexed attempt number.
Before each attempt the loop emits `reconnecting { attempt, delay_secs }`
with `delay_secs = min(2^(attempt-1), MAX_BACKOFF_SECS)` and sleeps that
long; on success it emits `connected` and returns the session; once the
attempts are exhausted it emits the final `disconnected` event. -/
def reconnectAux (p : ConnectParams) (outcome : Nat → Option Nat) :
    Nat → Nat → List MediaEvent × Option ActiveSession
  | 0, _ => ([MediaEvent.disconnected "Reconnection failed after 5 attempts"], none)
  | remaining + 1, attempt =>
      let delay_secs := min (2 ^ (attempt - 1)) MAX_BACKOFF_SECS
      match establish_session p (outcome attempt) with
      | some s => ([MediaEvent.reconnecting attempt delay_secs, MediaEvent.connected], some s)
      | none =>
          let rest := reconnectAux p outcome remaining (attempt + 1)
          (MediaEvent.reconnecting attempt delay_secs :: rest.1, rest.2)

/-- `reconnect_with_backoff` (sdk state.rs lines 126-163): up to
`MAX_RECONNECT_ATTEMPTS` attempts starting at attempt 1; returns the emitted
events and the session of the first successful attempt, if any. -/
def reconnect_with_backoff (p : ConnectParams) (outcome : Nat → Option Nat) :
    List MediaEvent × Option ActiveSession :=
  reconnectAux p outcome MAX_RECONNECT_ATTEMPTS 1

theorem reconnectAux_reconnecting_mem (p : ConnectParams) (outcome : Nat → Option Nat) :
    ∀ remaining attempt a d,
      MediaEvent.reconnecting a d ∈ (reconnectAux p outcome remaining attempt).1 →
      attempt ≤ a ∧ a < attempt + remaining ∧ d = min (2 ^ (a - 1)) MAX_BACKOFF_SECS := by
  intro remaining
  induction remaining with
  | zero =>
      intro attempt a d hmem
      simp [reconnectAux] at hmem
  | succ r ih =>
      intro attempt a d hmem
      rw [reconnectAux] at hmem
      rcases hout : outcome attempt with - | conn <;>
        rw [hout] at hmem <;>
        simp only [establish_session, Option.map_none', Option.map_some', List.mem_cons,
          List.mem_singleton, MediaEvent.reconnecting.injEq] at hmem
      · rcases hmem with ⟨ha, hd⟩ | hmem
        · subst ha hd
          exact ⟨le_refl _, by omega, rfl⟩
        · obtain ⟨h1, h2, h3⟩ := ih (attempt + 1) a d hmem
          exact ⟨by omega, by omega, h3⟩
      · rcases hmem with ⟨ha, hd⟩ | hmem | hmem
        · subst ha hd
          exact ⟨le_refl _, by omega, rfl⟩
        · simp at hmem
        · simp at hmem

/-- The event trace of a run of the reconnect loop in which every attempt
fails (proof scaffolding, mirroring `reconnectAux`'s recursion). -/
def failEvents : Nat → Nat → List MediaEvent
  | 0, _ => [MediaEvent.disconnected "Reconnection failed after 5 attempts"]
  | remaining + 1, attempt =>
      MediaEvent.reconnecting attempt (min (2 ^ (attempt - 1)) MAX_BACKOFF_SECS) ::
        failEvents remaining (attempt + 1)

theorem reconnectAux_all_fail (p : ConnectParams) (outcome : Nat → Option Nat)
    (hall : ∀ a, outcome a = none) :
    ∀ remaining attempt,
      reconnectAux p outcome remaining attempt = (failEvents remaining attempt, none) := by
  intro remaining
  induction remaining with
  | zero => intro attempt; rfl
  | succ r ih =>
      intro attempt
      rw [reconnectAux, hall attempt]
      simp only [establish_session, Option.map_none']
      rw [ih (attempt + 1)]
      rfl

/-- C7: in the reconnect loop, every `reconnecting { attempt, delay_secs }`
event is emitted for an attempt number between 1 and 5 — a 6th attempt never
occurs — with the delay slept before attempt `n` exactly
`min(2^(n-1), 30)` seconds; and when all five attempts fail, the emitted
events are exactly the five `reconnecting` events with delays
`[1, 2, 4, 8, 16]` followed by
`disconnected("Reconnection failed after 5 attempts")`, with no session
obtained. -/
theorem reconnect_backoff_schedule (p : ConnectParams) (outcome : Nat → Option Nat) :
    (∀ a d, MediaEvent.reconnecting a d ∈ (reconnect_with_backoff p outcome).1 →
        1 ≤ a ∧ a ≤ MAX_RECONNECT_ATTEMPTS ∧ d = min (2 ^ (a - 1)) MAX_BACKOFF_SECS) ∧
    ((∀ a, outcome a = none) →
      (reconnect_with_backoff p outcome).1 =
        [MediaEvent.reconnecting 1 1, MediaEvent.reconnecting 2 2, MediaEvent.reconnecting 3 4,
         MediaEvent.reconnecting 4 8, MediaEvent.reconnecting 5 16,
         MediaEvent.disconnected "Reconnection failed after 5 attempts"] ∧
      (reconnect_with_backoff p outcome).2 = none) := by
  have h5 : MAX_RECONNECT_ATTEMPTS = 5 := rfl
  constructor
  · intro a d hmem
    obtain ⟨h1, h2, h3⟩ :=
      reconnectAux_reconnecting_mem p outcome MAX_RECONNECT_ATTEMPTS 1 a d hmem
    rw [h5] at h2
    exact ⟨h1, by rw [h5]; omega, h3⟩
  · intro hall
    unfold reconnect_with_backoff
    rw [reconnectAux_all_fail p outcome hall MAX_RECONNECT_ATTEMPTS 1]
    exact ⟨rfl, rfl⟩

/-- Concrete connect parameters for the client-side witnesses. -/
def pReconnect : ConnectParams :=
  { url := "quic://127.0.0.1:4443", token := "t10", room_id := 7, user_id := 10,
    cert_der := none, idle_timeout_secs := 30, datagram_buffer_size := 65535 }

theorem reconnect_backoff_schedule_witness :
    (reconnect_with_backoff pReconnect (fun _ => none)).1 =
      [MediaEvent.reconnecting 1 1, MediaEvent.reconnecting 2 2, MediaEvent.reconnecting 3 4,
       MediaEvent.reconnecting 4 8, MediaEvent.reconnecting 5 16,
       MediaEvent.disconnected "Reconnection failed after 5 attempts"] ∧
    (reconnect_with_backoff pReconnect (fun _ => none)).2 = none :=
  (reconnect_backoff_schedule pReconnect (fun _ => none)).2 (fun _ => rfl)

/-! ## Client audio path (sdk state.rs / quic.rs) -/

/-- `PROTOCOL_VERSION` (quic.rs line 28). -/
def PROTOCOL_VERSION : Nat := 1
/-- `MEDIA_TYPE_AUDIO` (quic.rs line 17). -/
def MEDIA_TYPE_AUDIO : Nat := 0
/-- `MEDIA_TYPE_VIDEO` (quic.rs line 18). -/
def MEDIA_TYPE_VIDEO : Nat := 1

/-- Modelled from the spec: `send_audio_frame` passes `quic::CODEC_OPUS`,
whose definition is not among the provided sources.  The spec's
"codec_id=opus" together with the header test's opus codec byte fix it as 1;
its exact value is irrelevant to the counter claims. -/
def CODEC_OPUS : Nat := 1

/-- `OutFrame` (quic.rs lines 111-114). -/
structure OutFrame where
  header : MediaHeader
  payload : List Nat
deriving DecidableEq, Repr

/-- `OutFrame::audio` (quic.rs lines 117-135): audio frame defaults —
version 1, audio media type, end-of-frame flag, zero SVC ids, no DTX. -/
def OutFrame.audio (room_id user_id codec_id seq timestamp : Nat)
    (payload : List Nat) : OutFrame :=
  { header :=
      { version := PROTOCOL_VERSION, media_type := MEDIA_TYPE_AUDIO, codec_id := codec_id,
        flags := FLAG_END_OF_FRAME, room_id := room_id, user_id := user_id,
        sequence := seq, timestamp := timestamp, spatial_id := 0, temporal_id := 0,
        dtx := false }
    payload := payload }

/-- `send_audio_frame` (sdk state.rs lines 311-335).  `encResult` is the Opus
encoder's output: `none` on encode error, in which case the source returns
before touching the counters.  On success the frame carries the current
counters and both are then advanced with `u32` wrapping arithmetic
(`wrapping_add`, i.e. `% 2^32`); a failed datagram send is logged and
ignored, so it does not affect the counter update. -/
def send_audio_frame (s : ActiveSession) (encResult : Option (List Nat)) :
    ActiveSession × Option OutFrame :=
  match encResult with
  | none => (s, none)
  | some opus_data =>
      let frame := OutFrame.audio s.room_id s.user_id CODEC_OPUS s.sequence s.timestamp opus_data
      ({ s with sequence := (s.sequence + 1) % 2 ^ 32,
                timestamp := (s.timestamp + 960) % 2 ^ 32 }, some frame)

/-- `SetMute` handling in the connected arm of `run_media_loop`
(sdk state.rs lines 263-265). -/
def ActiveSession.setMute (s : ActiveSession) (muted : Bool) : ActiveSession :=
  { s with muted := muted }

/-- `SetDeaf` handling (sdk state.rs lines 266-268). -/
def ActiveSession.setDeaf (s : ActiveSession) (deafened : Bool) : ActiveSession :=
  { s with deafened := deafened }

/-- `SetVideo` handling (sdk state.rs lines 269-271). -/
def ActiveSession.setVideo (s : ActiveSession) (video : Bool) : ActiveSession :=
  { s with video := video }

/-- `InFrame::decode` (quic.rs lines 152-158): header plus remaining payload. -/
def InFrame.decode (data : List Nat) : Option (MediaHeader × List Nat) :=
  (MediaHeader.parse data).map (fun h => (h, data.drop HEADER_SIZE))

/-- `receive_audio_frame` (sdk state.rs lines 338-360): decode the frame,
drop non-audio frames, run the Opus decoder (abstracted as `decodeResult`),
and hand the PCM to the playback sink; no session field is ever written. -/
def receive_audio_frame (s : ActiveSession) (data : List Nat)
    (decodeResult : List Nat → Option (List Int)) : ActiveSession × Option (List Int) :=
  match InFrame.decode data with
  | none => (s, none)
  | some (header, payload) =>
      if header.media_type != MEDIA_TYPE_AUDIO then (s, none)
      else
        match decodeResult payload with
        | none => (s, none)
        | some pcm => (s, some pcm)

/-- C8: every audio frame emitted by `send_audio_frame` carries the session's
current `sequence` and `timestamp`, after which `sequence` advances by
exactly 1 and `timestamp` by exactly 960, both mod `2^32`; an encode failure
leaves the session unchanged, and no other session operation (`setMute`,
`setDeaf`, `setVideo`, `receive_audio_frame`) changes either counter. -/
theorem send_audio_frame_counters (s : ActiveSession) (opus_data : List Nat) (b : Bool)
    (data : List Nat) (dec : List Nat → Option (List Int)) :
    ((send_audio_frame s (some opus_data)).2.map (fun f => f.header.sequence)
        = some s.sequence) ∧
    ((send_audio_frame s (some opus_data)).2.map (fun f => f.header.timestamp)
        = some s.timestamp) ∧
    (send_audio_frame s (some opus_data)).1.sequence = (s.sequence + 1) % 2 ^ 32 ∧
    (send_audio_frame s (some opus_data)).1.timestamp = (s.timestamp + 960) % 2 ^ 32 ∧
    send_audio_frame s none = (s, none) ∧
    ((s.setMute b).sequence = s.sequence ∧ (s.setMute b).timestamp = s.timestamp) ∧
    ((s.setDeaf b).sequence = s.sequence ∧ (s.setDeaf b).timestamp = s.timestamp) ∧
    ((s.setVideo b).sequence = s.sequence ∧ (s.setVideo b).timestamp = s.timestamp) ∧
    (receive_audio_frame s data dec).1 = s := by
  refine ⟨rfl, rfl, rfl, rfl, rfl, ⟨rfl, rfl⟩, ⟨rfl, rfl⟩, ⟨rfl, rfl⟩, ?_⟩
  unfold receive_audio_frame
  split
  · rfl
  · split
    · rfl
    · split <;> rfl

theorem establish_session_inits (p : ConnectParams) (outcome : Option Nat)
    (s : ActiveSession) (h : establish_session p outcome = some s) :
    s.sequence = 0 ∧ s.timestamp = 0 ∧ s.muted = false ∧ s.deafened = false ∧
      s.video = false := by
  rcases outcome with - | conn
  · exact absurd h (by simp [establish_session])
  · simp only [establish_session, Option.map_some', Option.some.injEq] at h
    rw [← h]
    exact ⟨rfl, rfl, rfl, rfl, rfl⟩

theorem reconnectAux_session_from_establish (p : ConnectParams)
    (outcome : Nat → Option Nat) :
    ∀ remaining attempt s, (reconnectAux p outcome remaining attempt).2 = some s →
      ∃ a, establish_session p (outcome a) = some s := by
  intro remaining
  induction remaining with
  | zero => intro attempt s h; cases h
  | succ r ih =>
      intro attempt s h
      rw [reconnectAux] at h
      rcases hout : outcome attempt with - | conn <;> rw [hout] at h
      · exact ih (attempt + 1) s h
      · refine ⟨attempt, ?_⟩
        rw [hout]
        exact h

/-- C9: every `ActiveSession` returned by a successful `establish_session` —
including the session produced by any successful automatic reconnect
attempt — starts with `sequence = 0`, `timestamp = 0` and `muted`,
`deafened`, `video` all false; counters are never carried over from a
previous session. -/
theorem session_counters_start_at_zero (p : ConnectParams) (outcome : Option Nat)
    (outcomes : Nat → Option Nat) (s s' : ActiveSession) :
    (establish_session p outcome = some s →
      s.sequence = 0 ∧ s.timestamp = 0 ∧ s.muted = false ∧ s.deafened = false ∧
        s.video = false) ∧
    ((reconnect_with_backoff p outcomes).2 = some s' →
      s'.sequence = 0 ∧ s'.timestamp = 0 ∧ s'.muted = false ∧ s'.deafened = false ∧
        s'.video = false) := by
  constructor
  · exact establish_session_inits p outcome s
  · intro h
    obtain ⟨a, ha⟩ :=
      reconnectAux_session_from_establish p outcomes MAX_RECONNECT_ATTEMPTS 1 s' h
    exact establish_session_inits p (outcomes a) s' ha

/-- The session `establish_session` builds for `pReconnect` on handle 42. -/
def sFresh : ActiveSession :=
  { connection := 42, room_id := 7, user_id := 10, sequence := 0, timestamp := 0,
    muted := false, deafened := false, video := false }

theorem session_counters_start_at_zero_witness :
    sFresh.sequence = 0 ∧ sFresh.timestamp = 0 ∧ sFresh.muted = false ∧
      sFresh.deafened = false ∧ sFresh.video = false :=
  (session_counters_start_at_zero pReconnect (some 42) (fun _ => none) sFresh sFresh).1 rfl

/-! ## Host-facing client surface (sdk lib.rs) -/

/-- `MediaCommand` (sdk lib.rs lines 14-28). -/
inductive MediaCommand where
  | connect (url token : String) (room_id user_id : Nat) (cert_der : Option (List Nat))
      (idle_timeout_secs : Nat) (datagram_buffer_size : Nat) : MediaCommand
  | disconnect : MediaCommand
  | setMute : Bool → MediaCommand
  | setDeaf : Bool → MediaCommand
  | setVideo : Bool → MediaCommand
deriving DecidableEq, Repr

/-- The host-visible `VoxMediaClient` fields (sdk lib.rs lines 68-76) the
claims are about.  `cmd_tx` is `none` before `start()` (and after `stop()`);
once started it is `some alive`, where `alive` records whether the command
channel's receiver (the media loop) is still running —
`UnboundedSender::send` fails exactly when the receiver has been dropped. -/
structure VoxMediaClient where
  cmd_tx : Option Bool
  muted : Bool
  deafened : Bool
  video : Bool
deriving DecidableEq, Repr

/-- `VoxMediaClient::send_cmd` (sdk lib.rs lines 207-216). -/
def VoxMediaClient.send_cmd (c : VoxMediaClient) (cmd : MediaCommand) : Except String Unit :=
  match c.cmd_tx with
  | some alive =>
      if alive then Except.ok () else Except.error "Media runtime is not running"
  | none => Except.error "Media client not started"

/-- `VoxMediaClient::set_mute` (sdk lib.rs lines 147-150): the host-visible
flag is written first, then command delivery is attempted. -/
def VoxMediaClient.set_mute (c : VoxMediaClient) (muted : Bool) :
    VoxMediaClient × Except String Unit :=
  let c' := { c with muted := muted }
  (c', c'.send_cmd (MediaCommand.setMute muted))

/-- `VoxMediaClient::set_deaf` (sdk lib.rs lines 153-156). -/
def VoxMediaClient.set_deaf (c : VoxMediaClient) (deafened : Bool) :
    VoxMediaClient × Except String Unit :=
  let c' := { c with deafened := deafened }
  (c', c'.send_cmd (MediaCommand.setDeaf deafened))

/-- `is_muted` getter (sdk lib.rs lines 188-191). -/
def VoxMediaClient.is_muted (c : VoxMediaClient) : Bool := c.muted

/-- `is_deafened` getter (sdk lib.rs lines 194-197). -/
def VoxMediaClient.is_deafened (c : VoxMediaClient) : Bool := c.deafened

/-- C10: calling `set_mute b` (resp. `set_deaf b`) when the media runtime has
not been started (`cmd_tx = none`) or has stopped (receiver dropped) returns
the "Media client not started" / "Media runtime is not running" error, yet
the `is_muted` (resp. `is_deafened`) getter afterwards returns `b`: the
host-visible flag is updated before delivery is attempted, so it changes
even on the error path. -/
theorem set_mute_deaf_error_path_updates_flag (c : VoxMediaClient) (b : Bool)
    (hdown : c.cmd_tx = none ∨ c.cmd_tx = some false) :
    ((c.set_mute b).2 = Except.error "Media client not started" ∨
      (c.set_mute b).2 = Except.error "Media runtime is not running") ∧
    (c.set_mute b).1.is_muted = b ∧
    ((c.set_deaf b).2 = Except.error "Media client not started" ∨
      (c.set_deaf b).2 = Except.error "Media runtime is not running") ∧
    (c.set_deaf b).1.is_deafened = b := by
  rcases hdown with h | h <;>
    simp [VoxMediaClient.set_mute, VoxMediaClient.set_deaf, VoxMediaClient.send_cmd,
      VoxMediaClient.is_muted, VoxMediaClient.is_deafened, h]

/-- A client that was never started. -/
def clientFresh : VoxMediaClient :=
  { cmd_tx := none, muted := false, deafened := false, video := false }

theorem set_mute_deaf_error_path_updates_flag_witness :
    (((clientFresh.set_mute true).2 = Except.error "Media client not started" ∨
        (clientFresh.set_mute true).2 = Except.error "Media runtime is not running") ∧
      (clientFresh.set_mute true).1.is_muted = true ∧
      ((clientFresh.set_deaf true).2 = Except.error "Media client not started" ∨
        (clientFresh.set_deaf true).2 = Except.error "Media runtime is not running") ∧
      (clientFresh.set_deaf true).1.is_deafened = true) :=
  set_mute_deaf_error_path_updates_flag clientFresh true (Or.inl rfl)

end Vox
